import Mathlib

/-!
# Media rotation and fetch-orchestration core: a verified shallow embedding

This file embeds the media-fetching core of the rhythm-gif-scroller web
application in Lean 4 and proves properties of its specification against it.
The embedded code comes from:

* `src/utils/scrollerService.ts` — the `ScrollerService` class (fetch
  orchestration with single-flight guard, Reddit backup source, bounded retry
  with backoff, and mock-data terminal fallback, plus a pull-based
  `getNextItem` over a cached batch);
* `src/utils/redgifsService.ts` — the `RedgifsServiceClass` (token provider,
  search / trending fetch with a keyed result cache, a rotation cursor
  `currentItems`/`currentIndex`, and the `mapApiResponseToMediaItems`
  response mapper);
* `src/utils/redgifs/cacheService.ts` — `createCacheKey` (identical to the
  private `createCacheKey` in `RedgifsServiceClass`).

Modelling conventions:

* JavaScript strings are Lean `String`s; a missing/`undefined`/`null` string
  field is modelled as `""` (both are falsy in the source's truthiness tests).
* JavaScript numbers used by this code are naturals (`Nat`); a missing numeric
  field is `0` (falsy, matching the `x || fallback` idiom of the source).
* Asynchronous upstream interactions (HTTP fetches, token acquisition) are
  driven by explicit environment values describing the upstream behaviour
  (transport failure, malformed body, parsed payload), quantified over in the
  theorems.
* Mutable service state (`this.…` fields) is threaded explicitly; a thrown and
  not-yet-caught JavaScript exception is an `Except.error` carrying the state
  at the throw site, so a `try { … } catch { … }` block is a `match` whose
  `.error` arm is the handler, and an uncaught exception propagates as
  `.error`.
* Ghost counters (number of primary attempts, backoff sleeps, fetch calls,
  scheduled background refills) instrument the state so that temporal claims
  ("exactly three retries", "triggers a refill") can be stated; they influence
  no branch.
-/

/-! ## Data model (`src/types/index.ts`) -/

/-- The `'image' | 'video' | 'gif'` union type of `MediaItem.type`. -/
inductive MType where
  | image
  | gif
  | video
deriving DecidableEq, Repr

/-- `MediaItem` from `src/types/index.ts`. `width`/`height` are optional in
the TypeScript interface but every constructor site in the embedded services
supplies them (with `|| 0` / `|| 800` style fallbacks), so they are plain
`Nat`s here; an absent `thumbnailUrl` is `""`. -/
structure MediaItem where
  id : String
  url : String
  type : MType
  width : Nat
  height : Nat
  thumbnailUrl : String
deriving DecidableEq, Repr

/-- The `mediaTypes` record of `PlayerSettings`. -/
structure MediaTypeFlags where
  image : Bool
  gif : Bool
  video : Bool
deriving DecidableEq, Repr

/-- `PlayerSettings` from `src/types/index.ts`. Callers of the fetch services
pass `Partial<PlayerSettings>`; an absent `mediaTypes` member behaves exactly
like all-false flags and an absent `allowNsfw` like `false`, so the total
record loses no generality. -/
structure PlayerSettings where
  tags : List String
  slideDuration : Nat
  minDuration : Nat
  maxDuration : Nat
  taskTime : Nat
  slowestBpm : Nat
  fastestBpm : Nat
  mediaTypes : MediaTypeFlags
  allowNsfw : Bool
deriving DecidableEq, Repr

/-! ## JavaScript string primitives

`String.prototype.startsWith` / `endsWith` / `toLowerCase` and the default
`Array.prototype.sort()` comparator (UTF-16 code-unit lexicographic order)
are modelled on the character list underlying a Lean `String`. -/

/-- `s.startsWith(p)`. -/
def strStartsWith (s p : String) : Bool := p.data.isPrefixOf s.data

/-- `s.endsWith(p)`. -/
def strEndsWith (s p : String) : Bool := p.data.isSuffixOf s.data

/-- `s.toLowerCase()` (adequate for the ASCII extensions it is applied to). -/
def lowerStr (s : String) : String := ⟨s.data.map Char.toLower⟩

/-- The case-insensitive extension test `/\.(e₁|…|eₙ)$/i.test(url)` used by
`fetchFromRedditAPI`. -/
def extMatch (url : String) (exts : List String) : Bool :=
  exts.any (fun e => strEndsWith (lowerStr url) ("." ++ e))

/-- Code-point lexicographic order on character lists: the comparison done by
the default `Array.prototype.sort()` comparator on strings. -/
def lexLe : List Char → List Char → Bool
  | [], _ => true
  | _ :: _, [] => false
  | a :: as, b :: bs =>
    if a.toNat < b.toNat then true
    else if b.toNat < a.toNat then false
    else lexLe as bs

/-- String comparison used by the default sort. -/
def strLe (a b : String) : Bool := lexLe a.data b.data

/-- `strLe` as a relation, for use with `List.insertionSort`. -/
def strLeRel (a b : String) : Prop := strLe a b = true

instance (a b : String) : Decidable (strLeRel a b) := by
  unfold strLeRel; infer_instance

/-- `tags.sort()`: the default in-place sort, modelled as a pure sorted copy
(the in-place aspect is captured by `createCacheKey` returning the sorted
array alongside the key). -/
def sortStrings (tags : List String) : List String :=
  List.insertionSort strLeRel tags

/-! ## Cache key (`CacheServiceClass.createCacheKey`, and the identical
`RedgifsServiceClass.createCacheKey`)

```ts
public createCacheKey(tags: string[], includeNsfw: boolean): string {
  return `${tags.sort().join('+')}:${includeNsfw ? 'nsfw' : 'sfw'}`;
}
```

`tags.sort()` sorts the caller's array **in place** and returns it. The
embedding therefore returns a pair: the key, and the contents of the caller's
array after the call. -/
def createCacheKey (tags : List String) (includeNsfw : Bool) : String × List String :=
  let sorted := sortStrings tags
  (String.intercalate "+" sorted ++ ":" ++ (if includeNsfw then "nsfw" else "sfw"),
   sorted)

/-! ## Response mapper (`RedgifsServiceClass.mapApiResponseToMediaItems`)

A raw upstream entry, with the fields the mapper reads. JS field access on a
missing property yields `undefined` (falsy); an absent string field is `""`
and an absent numeric field is `0`. -/
structure RawRedgifsItem where
  id : String
  urlsHd : String
  urlsMp4 : String
  urlsSd : String
  urlsThumbnail : String
  urlsPoster : String
  contentUrlsMp4 : String
  mp4Url : String
  url : String
  thumbnail : String
  poster : String
  preview : String
  width : Nat
  height : Nat
deriving DecidableEq, Repr

/-- The media-URL selection chain of `mapApiResponseToMediaItems`: HD sources
first (`urls.hd`, `urls.mp4`, `content_urls.mp4`, `mp4Url`, a `.mp4`-suffixed
`url`), then SD fallbacks (`urls.sd`, `url`). Returns `""` when no
URL-bearing field is present. -/
def selectMediaUrl (it : RawRedgifsItem) : String :=
  let hd :=
    if it.urlsHd != "" then it.urlsHd
    else if it.urlsMp4 != "" then it.urlsMp4
    else if it.contentUrlsMp4 != "" then it.contentUrlsMp4
    else if it.mp4Url != "" then it.mp4Url
    else if it.url != "" && strEndsWith it.url ".mp4" then it.url
    else ""
  if hd != "" then hd
  else if it.urlsSd != "" then it.urlsSd
  else it.url

/-- The thumbnail selection chain (`urls.thumbnail`, `urls.poster`,
`thumbnail`, `poster`, `preview`). -/
def selectThumbnailUrl (it : RawRedgifsItem) : String :=
  if it.urlsThumbnail != "" then it.urlsThumbnail
  else if it.urlsPoster != "" then it.urlsPoster
  else if it.thumbnail != "" then it.thumbnail
  else if it.poster != "" then it.poster
  else if it.preview != "" then it.preview
  else ""

/-- `if (u && !u.startsWith('http')) u = 'https:' + u` — the absolute-URL
normalization applied to both media and thumbnail URLs. -/
def httpsAbsolute (u : String) : String :=
  if u != "" && !(strStartsWith u "http") then "https:" ++ u else u

/-- The per-item mapping callback. Returns `none` (the source returns `null`)
for an entry with no usable URL; the source's synthesized random id
`redgif-${Math.random()…}` is abstracted to a fixed placeholder (no claim
depends on synthesized ids). All Redgifs content is typed `video`. -/
def mapRedgifsItem (it : RawRedgifsItem) : Option MediaItem :=
  let mediaUrl := selectMediaUrl it
  if mediaUrl == "" then none
  else some
    { id := if it.id != "" then it.id else "redgif-fallback"
      url := httpsAbsolute mediaUrl
      type := MType.video
      width := it.width
      height := it.height
      thumbnailUrl := httpsAbsolute (selectThumbnailUrl it) }

/-- `items.map(item => …).filter(Boolean)`. -/
def mapApiResponseToMediaItems (items : List RawRedgifsItem) : List MediaItem :=
  (items.map mapRedgifsItem).filterMap id

/-! ## Reddit backup source (`ScrollerService.fetchFromRedditAPI`) -/

/-- A Reddit listing entry (`post.data`), with the fields the backup mapper
reads. `url_overridden_by_dest = ""` models an absent/falsy field;
`previewWidth = 0` / `previewHeight = 0` model an absent
`preview?.images[0]?.source?.width/height` (the `|| 800` / `|| 600` fallbacks
then apply). -/
structure RawRedditPost where
  id : String
  url_overridden_by_dest : String
  is_self : Bool
  is_video : Bool
  over_18 : Bool
  thumbnail : String
  previewWidth : Nat
  previewHeight : Nat
deriving DecidableEq, Repr

/-- The `MediaItem` built from an accepted Reddit post. -/
def redditItemOf (p : RawRedditPost) : MediaItem :=
  let url := p.url_overridden_by_dest
  let isVideo := extMatch url ["mp4", "webm"] || p.is_video
  { id := p.id
    url := url
    type := if isVideo then MType.video
            else if extMatch url ["gif"] then MType.gif
            else MType.image
    width := if p.previewWidth = 0 then 800 else p.previewWidth
    height := if p.previewHeight = 0 then 600 else p.previewHeight
    thumbnailUrl := if p.thumbnail != "" then p.thumbnail else url }

/-- The `for (const post of posts)` loop of `fetchFromRedditAPI`: keep posts
with a non-self destination URL whose sniffed kind is enabled in
`settings.mediaTypes`, skipping `over_18` posts unless `settings.allowNsfw`. -/
def redditLoop (settings : PlayerSettings) : List RawRedditPost → List MediaItem
  | [] => []
  | p :: rest =>
    if p.url_overridden_by_dest != "" && !p.is_self then
      let url := p.url_overridden_by_dest
      let isImage := extMatch url ["jpg", "jpeg", "png", "gif"]
      let isVideo := extMatch url ["mp4", "webm"] || p.is_video
      if (isImage && settings.mediaTypes.image) ||
         (isVideo && settings.mediaTypes.video) ||
         (extMatch url ["gif"] && settings.mediaTypes.gif) then
        if p.over_18 && !settings.allowNsfw then redditLoop settings rest
        else redditItemOf p :: redditLoop settings rest
      else redditLoop settings rest
    else redditLoop settings rest

/-- `fetchFromRedditAPI`: its own `try/catch` returns `[]` on any transport
or parsing failure (`none` outcome); on success (`some posts`, which also
covers `data.data?.children || []`) it maps the listing. It never throws. -/
def fetchFromRedditAPI (settings : PlayerSettings)
    (outcome : Option (List RawRedditPost)) : List MediaItem :=
  match outcome with
  | none => []
  | some posts => redditLoop settings posts

/-! ## Fetch orchestrator (`ScrollerService`) -/

namespace ScrollerService

/-- `MAX_RETRIES` from `scrollerService.ts`. -/
def MAX_RETRIES : Nat := 3

/-- A raw Scrolller GraphQL media item. `url = ""` models an absent/falsy
`url` (such items are skipped); `previewUrl = ""` models an absent
`preview?.url`. -/
structure RawScrollerItem where
  id : String
  rtype : String
  url : String
  width : Nat
  height : Nat
  previewUrl : String
deriving DecidableEq, Repr

/-- The `MediaItem` built from a raw Scrolller item: `'GIF'`/`'VIDEO'` type
tags map to `gif`/`video`, anything else to `image`; the thumbnail falls back
to the main URL. -/
def scrollerItemOf (it : RawScrollerItem) : MediaItem :=
  { id := it.id
    url := it.url
    type := if it.rtype = "GIF" then MType.gif
            else if it.rtype = "VIDEO" then MType.video
            else MType.image
    width := it.width
    height := it.height
    thumbnailUrl := if it.previewUrl != "" then it.previewUrl else it.url }

/-- The inner `for (const item of mediaItems)` loop: keep items with a truthy
`url`. -/
def processSubreddit : List RawScrollerItem → List MediaItem
  | [] => []
  | it :: rest =>
    if it.url != "" then scrollerItemOf it :: processSubreddit rest
    else processSubreddit rest

/-- The outer `for (const subreddit of subreddits)` loop over
`data.data?.reddit?.subreddits?.items`. -/
def processScrollerItems : List (List RawScrollerItem) → List MediaItem
  | [] => []
  | sub :: rest => processSubreddit sub ++ processScrollerItems rest

/-- The five imgur sample URLs of `generateMockData`. -/
def mockUrls : List String :=
  ["https://i.imgur.com/vQJGJnS.jpg",
   "https://i.imgur.com/8yYQfHa.jpg",
   "https://i.imgur.com/iiLEIG3.jpg",
   "https://i.imgur.com/1tuWbnL.jpg",
   "https://i.imgur.com/oUdZvOF.jpg"]

/-- `generateMockData(count)`: `count` image items cycling through
`mockUrls`. The source's `mock-${Date.now()}-${i}` ids are abstracted to
`mock-{i}` (no claim depends on the timestamp). -/
def generateMockData (count : Nat) : List MediaItem :=
  (List.range count).map (fun i =>
    { id := "mock-" ++ toString i
      type := MType.image
      url := mockUrls.getD (i % mockUrls.length) ""
      width := 800
      height := 600
      thumbnailUrl := mockUrls.getD (i % mockUrls.length) "" })

/-- The outcome of one primary (Scrolller GraphQL) attempt. `transportFail`
covers a rejected `fetch`, a non-2xx status and a `response.json()` failure
(each is thrown inside the outer `try`); `processError` is an exception
thrown while walking the nested response (caught by the inner `try`);
`success` carries the parsed per-subreddit item lists. -/
inductive ScrollerAttempt where
  | transportFail
  | processError
  | success (subreddits : List (List RawScrollerItem))

/-- Upstream behaviour for one `ScrollerService` call sequence: the primary
attempt outcome as a function of the current retry counter, the Reddit backup
outcome (`none` = its fetch fails), and the clock. -/
structure ScrollerEnv where
  attempt : Nat → ScrollerAttempt
  redditPosts : Option (List RawRedditPost)
  now : Nat

/-- The static state of `ScrollerService`. `sleeps`, `primaryAttempts` and
`pendingRefills` are ghost instrumentation counting the 1-second backoff
waits, the entries into the primary-attempt `try` block, and the background
refill timers scheduled by `getNextItem`; no branch reads them. -/
structure SState where
  cachedItems : List MediaItem
  lastFetchTime : Nat
  isFetching : Bool
  retryCount : Nat
  sleeps : Nat
  primaryAttempts : Nat
  pendingRefills : Nat
deriving DecidableEq, Repr

/-- The initial module state. -/
def initSState : SState :=
  { cachedItems := [], lastFetchTime := 0, isFetching := false, retryCount := 0,
    sleeps := 0, primaryAttempts := 0, pendingRefills := 0 }

/-- The `finally { this.isFetching = false; }` block of `fetchMedia`. -/
def finallyClearFetching (r : Except SState (List MediaItem × SState)) :
    Except SState (List MediaItem × SState) :=
  match r with
  | .ok (items, s) => .ok (items, { s with isFetching := false })
  | .error s => .error { s with isFetching := false }

/-- `ScrollerService.fetchMedia`, with bounded recursion made structural on a
fuel argument. The source recurses (`return this.fetchMedia(settings, limit)`)
only under `this.retryCount < MAX_RETRIES` after incrementing `retryCount`,
so at most `MAX_RETRIES` nested calls ever occur and the fuel supplied by
`fetchMedia` below is never exhausted (the fuel-`0` arm duplicates the
retries-exhausted arm and is unreachable from `fetchMedia`). -/
def fetchMediaGo (env : ScrollerEnv) (settings : PlayerSettings) (limit : Nat) :
    Nat → SState → Except SState (List MediaItem × SState)
  | fuel, s =>
    -- single-flight guard: a concurrent caller gets the cache, unchanged state
    if s.isFetching then .ok (s.cachedItems, s)
    else
      -- this.isFetching = true (ghost: one more primary attempt begins)
      let s0 : SState :=
        { s with isFetching := true, primaryAttempts := s.primaryAttempts + 1 }
      finallyClearFetching
        (match env.attempt s0.retryCount with
         | .success subs =>
           let items := processScrollerItems subs
           if items.isEmpty then
             -- zero results: toast, then return mock data
             -- (cache and retry counter untouched)
             .ok (generateMockData limit, s0)
           else
             -- reset retry count, overwrite cache, return the items
             .ok (items, { s0 with retryCount := 0, cachedItems := items,
                                   lastFetchTime := env.now })
         | .processError =>
           -- inner catch: return mock data
           .ok (generateMockData limit, s0)
         | .transportFail =>
           -- outer catch: Reddit backup (first cycle only), then bounded retry
           let redditItems :=
             if s0.retryCount = 0 then fetchFromRedditAPI settings env.redditPosts
             else []
           if redditItems.isEmpty then
             if s0.retryCount < MAX_RETRIES then
               -- retryCount++; isFetching = false; 1s backoff; recurse
               match fuel with
               | fuel' + 1 =>
                 fetchMediaGo env settings limit fuel'
                   { s0 with retryCount := s0.retryCount + 1,
                             isFetching := false, sleeps := s0.sleeps + 1 }
               | 0 =>
                 -- fuel exhausted: unreachable from `fetchMedia`
                 .ok (generateMockData limit, { s0 with retryCount := 0 })
             else
               -- retries exhausted: reset the counter, return mock data
               .ok (generateMockData limit, { s0 with retryCount := 0 })
           else
             .ok (redditItems, { s0 with cachedItems := redditItems,
                                         lastFetchTime := env.now,
                                         isFetching := false }))

/-- `ScrollerService.fetchMedia(settings, limit)`. -/
def fetchMedia (env : ScrollerEnv) (settings : PlayerSettings) (limit : Nat)
    (s : SState) : Except SState (List MediaItem × SState) :=
  fetchMediaGo env settings limit MAX_RETRIES s

/-- `const item = this.cachedItems.shift() || null;` followed by the
low-water-mark background refill (`setTimeout(…fetchMedia…, 100)`, counted by
the `pendingRefills` ghost). -/
def serveNext (s : SState) : Except SState (Option MediaItem × SState) :=
  let pair : Option MediaItem × SState :=
    match s.cachedItems with
    | [] => (none, s)
    | h :: t => (some h, { s with cachedItems := t })
  let s2 := pair.2
  let s3 :=
    if s2.cachedItems.length < 5 then
      { s2 with pendingRefills := s2.pendingRefills + 1 }
    else s2
  .ok (pair.1, s3)

/-- `ScrollerService.getNextItem(settings)`. -/
def getNextItem (env : ScrollerEnv) (settings : PlayerSettings) (s : SState) :
    Except SState (Option MediaItem × SState) :=
  if s.cachedItems.isEmpty then
    match fetchMedia env settings 20 s with
    | .error sE => .error sE
    | .ok (items, s1) =>
      if items.isEmpty then .ok (none, s1)
      else serveNext s1
  else serveNext s

end ScrollerService

/-! ## Rotation sequencer and keyed cache (`RedgifsServiceClass`) -/

namespace RedgifsService

/-- Outcome of the token endpoint request. `failure` covers a network error,
a non-2xx status and a missing `access_token` is carried separately
(`success` with `token = ""`); `expiresIn = 0` models a missing `expires_in`
(the `|| 3600` fallback applies). -/
inductive TokenOutcome where
  | failure
  | success (token : String) (expiresIn : Nat)

/-- Outcome of a search or trending request. `transportFail` covers a
rejected `fetch`, a non-2xx status and a `response.json()` failure; `gifs` /
`items` carry the `data.gifs` / `data.items` arrays; `invalidFormat` is a
body with neither. -/
inductive SearchOutcome where
  | transportFail
  | gifs (l : List RawRedgifsItem)
  | items (l : List RawRedgifsItem)
  | invalidFormat

/-- Upstream behaviour for one `RedgifsService` call: token endpoint, search
endpoint, trending endpoint, and the clock (`Date.now()`). -/
structure REnv where
  token : TokenOutcome
  search : SearchOutcome
  trending : SearchOutcome
  now : Nat

/-- The instance state of `RedgifsServiceClass`. `fetchMediaCalls` is a ghost
counter of `fetchMedia` invocations; no branch reads it. -/
structure RState where
  cache : List (String × List MediaItem)
  currentItems : List MediaItem
  currentIndex : Nat
  temporaryToken : Option String
  tokenExpiry : Nat
  fetchMediaCalls : Nat
deriving DecidableEq, Repr

/-- The freshly constructed singleton's state. -/
def initRState : RState :=
  { cache := [], currentItems := [], currentIndex := 0,
    temporaryToken := none, tokenExpiry := 0, fetchMediaCalls := 0 }

/-- `this.cache[key]` lookup. -/
def cacheLookup (k : String) : List (String × List MediaItem) → Option (List MediaItem)
  | [] => none
  | (k', v) :: rest => if k' = k then some v else cacheLookup k rest

/-- `this.cache[key] = items` assignment. -/
def cacheInsert (k : String) (v : List MediaItem) :
    List (String × List MediaItem) → List (String × List MediaItem)
  | [] => [(k, v)]
  | (k', v') :: rest =>
    if k' = k then (k, v) :: rest else (k', v') :: cacheInsert k v rest

/-- `RedgifsServiceClass.clearCache()`: empties the cache, the current batch,
and resets the cursor. The token fields are untouched. -/
def clearCache (s : RState) : RState :=
  { s with cache := [], currentItems := [], currentIndex := 0 }

/-- `getTemporaryToken()`: returns a still-valid cached token, otherwise
acquires one; every failure path (network, non-2xx, missing `access_token`)
is caught and degrades to the `'anonymous'` sentinel with a one-hour expiry.
Never throws. -/
def getTemporaryToken (env : REnv) (s : RState) : String × RState :=
  if s.temporaryToken.getD "" ≠ "" ∧ env.now < s.tokenExpiry then
    (s.temporaryToken.getD "", s)
  else
    match env.token with
    | .success tok expiresIn =>
      if tok ≠ "" then
        (tok, { s with temporaryToken := some tok,
                       tokenExpiry :=
                         env.now + (if expiresIn = 0 then 3600 else expiresIn) * 1000 })
      else
        ("anonymous", { s with temporaryToken := some "anonymous",
                               tokenExpiry := env.now + 3600000 })
    | .failure =>
      ("anonymous", { s with temporaryToken := some "anonymous",
                             tokenExpiry := env.now + 3600000 })

/-- Parsing a search-shaped response inside a `try` block: transport failures
and the explicit `throw new Error('Invalid API response format')` are thrown
(`.error`), a recognized `gifs`/`items` array is returned. -/
def parseSearchResponse : SearchOutcome → Except Unit (List RawRedgifsItem)
  | .transportFail => .error ()
  | .gifs l => .ok l
  | .items l => .ok l
  | .invalidFormat => .error ()

/-- `fetchTrendingMedia()`: every failure path (thrown transport error, or an
unrecognized body which returns `[]` directly) yields `[]`; otherwise the
mapped items. It touches no instance state and never throws. -/
def fetchTrendingMedia (env : REnv) : List MediaItem :=
  match env.trending with
  | .transportFail => []
  | .invalidFormat => []
  | .gifs l => mapApiResponseToMediaItems l
  | .items l => mapApiResponseToMediaItems l

/-- Ghost instrumentation: count one `fetchMedia` invocation. -/
def bumpCalls (s : RState) : RState :=
  { s with fetchMediaCalls := s.fetchMediaCalls + 1 }

/-- The cache-miss path of `fetchMedia` (its `try { … } catch { return
this.fetchTrendingMedia(); }` block): clear the cache, refresh the token,
issue the search; a thrown search failure is caught into the trending
fallback, zero mapped items also fall back to trending, and a non-empty
mapped batch is cached under `cacheKey` and installed as the current batch. -/
def fetchMediaMiss (env : REnv) (cacheKey : String) (s : RState) :
    Except RState (List MediaItem × RState) :=
  let s1 := clearCache s
  let s2 := (getTemporaryToken env s1).2
  match parseSearchResponse env.search with
  | .error _ => .ok (fetchTrendingMedia env, s2)
  | .ok raw =>
    let mediaItems := mapApiResponseToMediaItems raw
    if mediaItems.isEmpty then
      .ok (fetchTrendingMedia env, s2)
    else
      .ok (mediaItems, { s2 with cache := cacheInsert cacheKey mediaItems s2.cache,
                                 currentItems := mediaItems,
                                 currentIndex := 0 })

/-- `RedgifsServiceClass.fetchMedia(tags, includeNsfw)`: trending fallback on
empty tags, cached batch on a non-empty cache hit, otherwise the miss path. -/
def fetchMedia (env : REnv) (tags : List String) (includeNsfw : Bool)
    (s : RState) : Except RState (List MediaItem × RState) :=
  let s := bumpCalls s
  if tags.isEmpty then .ok (fetchTrendingMedia env, s)
  else
    let cacheKey := (createCacheKey tags includeNsfw).1
    match cacheLookup cacheKey s.cache with
    | some cached =>
      if 0 < cached.length then .ok (cached, s)
      else fetchMediaMiss env cacheKey s
    | none => fetchMediaMiss env cacheKey s

/-- `const item = this.currentItems[this.currentIndex]; this.currentIndex++;`
followed by `console.log('Returning item:', item.id, …)`, which throws a
`TypeError` if the access were out of bounds (the `.error` arm; the theorems
show it is unreachable). -/
def serveItem (s : RState) : Except RState (Option MediaItem × RState) :=
  match s.currentItems[s.currentIndex]? with
  | some it => .ok (some it, { s with currentIndex := s.currentIndex + 1 })
  | none => .error { s with currentIndex := s.currentIndex + 1 }

/-- `RedgifsServiceClass.getNextItem(settings)`. -/
def getNextItem (env : REnv) (tags : List String) (allowNsfw : Bool)
    (s : RState) : Except RState (Option MediaItem × RState) :=
  if tags.isEmpty then
    -- no tags: serve the first trending item, or null
    .ok ((fetchTrendingMedia env).head?, s)
  else if s.currentItems.length = 0 ∨ s.currentItems.length ≤ s.currentIndex then
    -- ran out of items: fetch more
    match fetchMedia env tags allowNsfw s with
    | .error sE => .error sE
    | .ok (newItems, s1) =>
      if newItems.isEmpty then
        -- still nothing: try trending directly
        .ok ((fetchTrendingMedia env).head?, s1)
      else
        serveItem { s1 with currentItems := newItems, currentIndex := 0 }
  else
    serveItem s

/-- The state component of a call result (on an uncaught exception the state
at the throw site persists). -/
def exceptState {α : Type} : Except RState (α × RState) → RState
  | .ok (_, s) => s
  | .error s => s

/-- The item component of a `getNextItem` result. -/
def exceptItem : Except RState (Option MediaItem × RState) → Option MediaItem
  | .ok (it, _) => it
  | .error _ => none

/-- One externally driven call on the `RedgifsService` singleton. -/
inductive RStep where
  | getNext (env : REnv) (tags : List String) (allowNsfw : Bool)
  | fetch (env : REnv) (tags : List String) (allowNsfw : Bool)
  | clear

/-- State transition of one call. -/
def applyStep (s : RState) : RStep → RState
  | .getNext env tags nsfw => exceptState (getNextItem env tags nsfw s)
  | .fetch env tags nsfw => exceptState (fetchMedia env tags nsfw s)
  | .clear => clearCache s

/-- Run a call sequence from a state. -/
def runSteps (s : RState) (steps : List RStep) : RState :=
  steps.foldl applyStep s

/-- The rotation-cursor invariant: the index never passes the end of the
batch (`0 ≤ index` is intrinsic to `Nat`). -/
def cursorInv (s : RState) : Prop :=
  s.currentIndex ≤ s.currentItems.length

end RedgifsService

/-! ## Concrete instances used by the theorems and witnesses -/

/-- A typical settings object (`{tags: ["nature"], allowNsfw: false}` with
image content enabled). -/
def natureSettings : PlayerSettings :=
  { tags := ["nature"], slideDuration := 5, minDuration := 1, maxDuration := 10,
    taskTime := 30, slowestBpm := 40, fastestBpm := 120,
    mediaTypes := { image := true, gif := false, video := false },
    allowNsfw := false }

/-- An environment whose primary attempt succeeds (HTTP 200, well-formed
body) but yields zero media items, and whose Reddit backup fails. -/
def envZeroResults : ScrollerService.ScrollerEnv :=
  { attempt := fun _ => ScrollerService.ScrollerAttempt.success [],
    redditPosts := none, now := 0 }

/-- An environment in which every primary attempt and the Reddit backup fail
at the transport level. -/
def envAllFail : ScrollerService.ScrollerEnv :=
  { attempt := fun _ => ScrollerService.ScrollerAttempt.transportFail,
    redditPosts := none, now := 0 }

/-- A Reddit post that maps to an NSFW-safe image item. -/
def naturePost1 : RawRedditPost :=
  { id := "n1", url_overridden_by_dest := "https://i.redd.it/n1.jpg",
    is_self := false, is_video := false, over_18 := false,
    thumbnail := "", previewWidth := 0, previewHeight := 0 }

/-- A second NSFW-safe image post. -/
def naturePost2 : RawRedditPost :=
  { id := "n2", url_overridden_by_dest := "https://i.redd.it/n2.jpg",
    is_self := false, is_video := false, over_18 := false,
    thumbnail := "", previewWidth := 0, previewHeight := 0 }

/-- A post flagged `over_18: true`. -/
def nsfwSamplePost : RawRedditPost :=
  { id := "x1", url_overridden_by_dest := "https://i.redd.it/x1.jpg",
    is_self := false, is_video := false, over_18 := true,
    thumbnail := "", previewWidth := 0, previewHeight := 0 }

/-- A raw upstream entry whose media and thumbnail URLs are protocol-relative. -/
def protoRelItem : RawRedgifsItem :=
  { id := "g1", urlsHd := "//media.example/g1.mp4", urlsMp4 := "", urlsSd := "",
    urlsThumbnail := "//media.example/g1-thumb.jpg", urlsPoster := "",
    contentUrlsMp4 := "", mp4Url := "", url := "", thumbnail := "",
    poster := "", preview := "", width := 0, height := 0 }

/-- A raw upstream entry with no URL-bearing field at all. -/
def urllessItem : RawRedgifsItem :=
  { id := "g2", urlsHd := "", urlsMp4 := "", urlsSd := "", urlsThumbnail := "",
    urlsPoster := "", contentUrlsMp4 := "", mp4Url := "", url := "",
    thumbnail := "", poster := "", preview := "", width := 0, height := 0 }

/-- A Redgifs environment: anonymous token, a one-item search result, failing
trending endpoint. -/
def rEnvSample : RedgifsService.REnv :=
  { token := RedgifsService.TokenOutcome.failure,
    search := RedgifsService.SearchOutcome.gifs [protoRelItem],
    trending := RedgifsService.SearchOutcome.transportFail, now := 0 }

/-- An exhausted-cursor state: one-item batch fully served. -/
def exhaustedRState : RedgifsService.RState :=
  { cache := [],
    currentItems := [{ id := "i0", url := "https://u", type := MType.image,
                       width := 1, height := 1, thumbnailUrl := "" }],
    currentIndex := 1, temporaryToken := none, tokenExpiry := 0,
    fetchMediaCalls := 0 }

/-- The items produced by the cache-miss path of `RedgifsService.fetchMedia`
(a function of the environment alone; used to state that the post-clear
serve depends only on the fresh fetch). -/
def missItems (env : RedgifsService.REnv) : List MediaItem :=
  match RedgifsService.parseSearchResponse env.search with
  | .error _ => RedgifsService.fetchTrendingMedia env
  | .ok raw =>
    if (mapApiResponseToMediaItems raw).isEmpty then RedgifsService.fetchTrendingMedia env
    else mapApiResponseToMediaItems raw

/-! ## Order lemmas for the sort comparator, and URL facts -/

theorem lexLe_total (as bs : List Char) : lexLe as bs = true ∨ lexLe bs as = true := by
  induction as generalizing bs with
  | nil => left; rfl
  | cons a as ih =>
    cases bs with
    | nil => right; rfl
    | cons b bs =>
      by_cases h1 : a.toNat < b.toNat
      · left; simp [lexLe, h1]
      · by_cases h2 : b.toNat < a.toNat
        · right; simp [lexLe, h2]
        · have := ih bs
          simpa [lexLe, h1, h2] using this

theorem lexLe_cons_iff (a b : Char) (as bs : List Char) :
    lexLe (a :: as) (b :: bs) = true ↔
      a.toNat < b.toNat ∨ (a.toNat = b.toNat ∧ lexLe as bs = true) := by
  simp only [lexLe]
  by_cases h1 : a.toNat < b.toNat
  · simp [h1]
  · by_cases h2 : b.toNat < a.toNat
    · rw [if_neg h1, if_pos h2]
      simp only [Bool.false_eq_true, false_iff]
      rintro (h | ⟨h, _⟩) <;> omega
    · rw [if_neg h1, if_neg h2]
      constructor
      · intro h; exact Or.inr ⟨by omega, h⟩
      · rintro (h | ⟨_, h⟩)
        · omega
        · exact h

theorem lexLe_trans (as bs cs : List Char) (h1 : lexLe as bs = true)
    (h2 : lexLe bs cs = true) : lexLe as cs = true := by
  induction as generalizing bs cs with
  | nil => rfl
  | cons a as ih =>
    cases bs with
    | nil => simp [lexLe] at h1
    | cons b bs =>
      cases cs with
      | nil => simp [lexLe] at h2
      | cons c cs =>
        rw [lexLe_cons_iff] at h1 h2 ⊢
        rcases h1 with h1 | ⟨h1e, h1r⟩ <;> rcases h2 with h2 | ⟨h2e, h2r⟩
        · exact Or.inl (by omega)
        · exact Or.inl (by omega)
        · exact Or.inl (by omega)
        · exact Or.inr ⟨by omega, ih bs cs h1r h2r⟩

theorem lexLe_antisymm (as bs : List Char) (h1 : lexLe as bs = true)
    (h2 : lexLe bs as = true) : as = bs := by
  induction as generalizing bs with
  | nil =>
    cases bs with
    | nil => rfl
    | cons b bs => simp [lexLe] at h2
  | cons a as ih =>
    cases bs with
    | nil => simp [lexLe] at h1
    | cons b bs =>
      rw [lexLe_cons_iff] at h1 h2
      rcases h1 with h1 | ⟨h1e, h1r⟩
      · rcases h2 with h2 | ⟨h2e, _⟩ <;> omega
      · rcases h2 with h2 | ⟨_, h2r⟩
        · omega
        · have hnat : a.val.toNat = b.val.toNat := h1e
          have hval : a = b := Char.ext (UInt32.ext hnat)
          subst hval
          rw [ih bs h1r h2r]

instance : IsTotal String strLeRel :=
  ⟨fun a b => lexLe_total a.data b.data⟩

instance : IsTrans String strLeRel :=
  ⟨fun a b c h1 h2 => lexLe_trans a.data b.data c.data h1 h2⟩

instance : IsAntisymm String strLeRel :=
  ⟨fun a b h1 h2 => String.ext (lexLe_antisymm a.data b.data h1 h2)⟩

/-- Sorting is a canonical form: permuted inputs sort to the same list. -/
theorem sortStrings_eq_of_perm {l₁ l₂ : List String} (h : l₁.Perm l₂) :
    sortStrings l₁ = sortStrings l₂ := by
  apply List.eq_of_perm_of_sorted (r := strLeRel)
  · exact ((List.perm_insertionSort _ l₁).trans h).trans
      (List.perm_insertionSort _ l₂).symm
  · exact List.sorted_insertionSort _ l₁
  · exact List.sorted_insertionSort _ l₂

/-! ## Facts about protocol-relative URLs -/

/-- A string starting with `//` is nonempty. -/
theorem strStartsWith_protorel_ne_empty (u : String)
    (h : strStartsWith u "//" = true) : u ≠ "" := by
  intro he
  subst he
  simp [strStartsWith, List.isPrefixOf] at h

/-- A string starting with `//` does not start with `http`, so the
`!url.startsWith('http')` normalization fires on it. -/
theorem strStartsWith_protorel_not_http (u : String)
    (h : strStartsWith u "//" = true) : strStartsWith u "http" = false := by
  unfold strStartsWith at h ⊢
  rw [show ("//" : String).data = ['/', '/'] from rfl] at h
  rw [show ("http" : String).data = ['h', 't', 't', 'p'] from rfl]
  cases hu : u.data with
  | nil => rw [hu] at h; simp [List.isPrefixOf] at h
  | cons c cs =>
    rw [hu] at h
    simp only [List.isPrefixOf, Bool.and_eq_true, beq_iff_eq] at h
    have hc : c = '/' := h.1.symm
    subst hc
    simp [List.isPrefixOf]

/-! ## Totality of the fetch orchestrator -/

namespace ScrollerService

theorem finallyClearFetching_isOk (r : Except SState (List MediaItem × SState))
    (h : ∃ v, r = .ok v) : ∃ v, finallyClearFetching r = .ok v := by
  obtain ⟨⟨items, s⟩, hv⟩ := h
  subst hv
  exact ⟨_, rfl⟩

/-- Every arm of the orchestrator resolves: no exception escapes the
`try/catch/finally` structure. -/
theorem fetchMediaGo_isOk (env : ScrollerEnv) (settings : PlayerSettings)
    (limit : Nat) :
    ∀ (fuel : Nat) (s : SState),
      ∃ v, fetchMediaGo env settings limit fuel s = .ok v := by
  intro fuel
  induction fuel with
  | zero =>
    intro s
    rw [fetchMediaGo]
    split
    · exact ⟨_, rfl⟩
    · apply finallyClearFetching_isOk
      split <;> (try dsimp only) <;> (repeat' split) <;> exact ⟨_, rfl⟩
  | succ fuel ih =>
    intro s
    rw [fetchMediaGo]
    split
    · exact ⟨_, rfl⟩
    · apply finallyClearFetching_isOk
      split <;> (try dsimp only) <;> (repeat' split) <;>
        first
          | exact ⟨_, rfl⟩
          | apply ih

theorem fetchMedia_isOk (env : ScrollerEnv) (settings : PlayerSettings)
    (limit : Nat) (s : SState) :
    ∃ v, fetchMedia env settings limit s = .ok v :=
  fetchMediaGo_isOk env settings limit MAX_RETRIES s

theorem getNextItem_isOk (env : ScrollerEnv) (settings : PlayerSettings)
    (s : SState) : ∃ v, getNextItem env settings s = .ok v := by
  unfold getNextItem
  split
  · split
    · rename_i sE hE
      obtain ⟨⟨items, s1⟩, hf⟩ := fetchMedia_isOk env settings 20 s
      rw [hf] at hE
      simp at hE
    · split
      · exact ⟨_, rfl⟩
      · exact ⟨_, rfl⟩
  · exact ⟨_, rfl⟩

/-- Under total transport failure the orchestrator walks exactly
`retryCount + fuel = MAX_RETRIES` cycles: each one consumes one primary
attempt, and each but the final exhausted cycle schedules one backoff
sleep. -/
theorem fetchMediaGo_allFail (env : ScrollerEnv) (settings : PlayerSettings)
    (limit : Nat) (hA : ∀ n, env.attempt n = .transportFail)
    (hR : fetchFromRedditAPI settings env.redditPosts = []) :
    ∀ (fuel : Nat) (s : SState), s.isFetching = false →
      s.retryCount + fuel = MAX_RETRIES →
      fetchMediaGo env settings limit fuel s =
        .ok (generateMockData limit,
             ⟨s.cachedItems, s.lastFetchTime, false, 0, s.sleeps + fuel,
              s.primaryAttempts + fuel + 1, s.pendingRefills⟩) := by
  intro fuel
  induction fuel with
  | zero =>
    intro s hF hRC
    have hrc : s.retryCount = MAX_RETRIES := by omega
    rw [fetchMediaGo]
    simp [hF, hA, hR, hrc, finallyClearFetching]
  | succ fuel ih =>
    intro s hF hRC
    have hlt : s.retryCount < MAX_RETRIES := by omega
    rw [fetchMediaGo]
    simp only [hF, Bool.false_eq_true, if_false, hA]
    dsimp only
    rw [hR]
    simp only [ite_self, List.isEmpty_nil, if_pos hlt, if_true]
    have hrec := ih
      ⟨s.cachedItems, s.lastFetchTime, false, s.retryCount + 1, s.sleeps + 1,
       s.primaryAttempts + 1, s.pendingRefills⟩ rfl
      (show s.retryCount + 1 + fuel = MAX_RETRIES by omega)
    rw [hrec]
    simp [finallyClearFetching, SState.mk.injEq]
    omega

end ScrollerService

/-! ## Behaviour of the rotation sequencer -/

namespace RedgifsService

theorem getTemporaryToken_fields (env : REnv) (s : RState) :
    (getTemporaryToken env s).2.cache = s.cache ∧
    (getTemporaryToken env s).2.currentItems = s.currentItems ∧
    (getTemporaryToken env s).2.currentIndex = s.currentIndex ∧
    (getTemporaryToken env s).2.fetchMediaCalls = s.fetchMediaCalls := by
  unfold getTemporaryToken
  repeat' split
  all_goals exact ⟨rfl, rfl, rfl, rfl⟩

/-- The cache-miss path: it resolves with the environment-determined
`missItems`, a reset cursor, an untouched ghost counter, and a cache whose
only possible entry is the fetched key. -/
theorem fetchMediaMiss_spec (env : REnv) (k : String) (s : RState) :
    ∃ s', fetchMediaMiss env k s = .ok (missItems env, s') ∧
      s'.currentIndex = 0 ∧
      s'.fetchMediaCalls = s.fetchMediaCalls ∧
      (∀ e ∈ s'.cache, e.1 = k) ∧
      s'.cache.length ≤ 1 := by
  obtain ⟨hc, hci, hix, hg⟩ := getTemporaryToken_fields env (clearCache s)
  have hc0 : (getTemporaryToken env (clearCache s)).2.cache = [] := by
    rw [hc]; rfl
  have hix0 : (getTemporaryToken env (clearCache s)).2.currentIndex = 0 := by
    rw [hix]; rfl
  have hg0 : (getTemporaryToken env (clearCache s)).2.fetchMediaCalls
      = s.fetchMediaCalls := by
    rw [hg]; rfl
  unfold fetchMediaMiss missItems
  cases hp : parseSearchResponse env.search with
  | error e =>
    refine ⟨_, rfl, hix0, hg0, ?_, ?_⟩
    · rw [hc0]; intro e he; simp at he
    · rw [hc0]; simp
  | ok raw =>
    dsimp only
    split
    · refine ⟨_, rfl, hix0, hg0, ?_, ?_⟩
      · rw [hc0]; intro e he; simp at he
      · rw [hc0]; simp
    · refine ⟨_, rfl, rfl, hg0, ?_, ?_⟩
      · rw [hc0]
        intro e he
        simp [cacheInsert] at he
        rw [he]
      · rw [hc0]
        simp [cacheInsert]

/-- `fetchMedia` always resolves; it counts one invocation, and either leaves
the cursor and cache alone (trending fallback or cache hit) or resets the
cursor and rebuilds the cache from scratch for the fetched key. -/
theorem fetchMediaR_spec (env : REnv) (tags : List String) (nsfw : Bool)
    (s : RState) :
    ∃ items s', fetchMedia env tags nsfw s = .ok (items, s') ∧
      s'.fetchMediaCalls = s.fetchMediaCalls + 1 ∧
      (s'.currentIndex = 0 ∨
        (s'.currentItems = s.currentItems ∧ s'.currentIndex = s.currentIndex)) ∧
      (s'.cache = s.cache ∨
        ((∀ e ∈ s'.cache, e.1 = (createCacheKey tags nsfw).1) ∧
         s'.cache.length ≤ 1)) := by
  unfold fetchMedia
  dsimp only
  split
  · exact ⟨_, _, rfl, rfl, Or.inr ⟨rfl, rfl⟩, Or.inl rfl⟩
  · split
    · rename_i cached hl
      split
      · exact ⟨_, _, rfl, rfl, Or.inr ⟨rfl, rfl⟩, Or.inl rfl⟩
      · obtain ⟨s', hs', hix, hg, hck, hcl⟩ :=
          fetchMediaMiss_spec env (createCacheKey tags nsfw).1 (bumpCalls s)
        rw [hs']
        exact ⟨_, _, rfl, by rw [hg]; rfl, Or.inl hix, Or.inr ⟨hck, hcl⟩⟩
    · obtain ⟨s', hs', hix, hg, hck, hcl⟩ :=
        fetchMediaMiss_spec env (createCacheKey tags nsfw).1 (bumpCalls s)
      rw [hs']
      exact ⟨_, _, rfl, by rw [hg]; rfl, Or.inl hix, Or.inr ⟨hck, hcl⟩⟩

theorem serveItem_fields (s : RState) :
    (exceptState (serveItem s)).cache = s.cache ∧
    (exceptState (serveItem s)).currentItems = s.currentItems ∧
    (exceptState (serveItem s)).fetchMediaCalls = s.fetchMediaCalls ∧
    (exceptState (serveItem s)).currentIndex = s.currentIndex + 1 := by
  unfold serveItem
  cases h : s.currentItems[s.currentIndex]? <;>
    simp [h, exceptState]

theorem serveItem_inbounds (s : RState)
    (h : s.currentIndex < s.currentItems.length) :
    serveItem s = .ok (some s.currentItems[s.currentIndex],
      { s with currentIndex := s.currentIndex + 1 }) := by
  unfold serveItem
  rw [List.getElem?_eq_getElem h]

/-- The post-clear serve depends only on the fresh batch installed over the
cursor: the served item is the head of that batch. -/
theorem serveItem_override (s : RState) (items : List MediaItem) :
    serveItem { s with currentItems := items, currentIndex := 0 } =
      (match items[0]? with
       | some it => .ok (some it, { s with currentItems := items, currentIndex := 1 })
       | none => .error { s with currentItems := items, currentIndex := 1 }) := by
  unfold serveItem
  cases h : items[0]? <;> simp [h]

end RedgifsService

namespace RedgifsService

theorem fetchMediaR_inv (env : REnv) (tags : List String) (nsfw : Bool)
    (s : RState) (h : cursorInv s) :
    cursorInv (exceptState (fetchMedia env tags nsfw s)) := by
  obtain ⟨items, s', hok, _, hcur, _⟩ := fetchMediaR_spec env tags nsfw s
  rw [hok]
  rcases hcur with h0 | ⟨hi, hx⟩
  · simp [exceptState, cursorInv, h0]
  · simp only [exceptState, cursorInv, hi, hx]
    exact h

theorem getNextItemR_isOk (env : REnv) (tags : List String) (nsfw : Bool)
    (s : RState) : ∃ v, getNextItem env tags nsfw s = .ok v := by
  unfold getNextItem
  split
  · exact ⟨_, rfl⟩
  · split
    · split
      · rename_i sE hE
        obtain ⟨items, s', hok, _⟩ := fetchMediaR_spec env tags nsfw s
        rw [hok] at hE
        simp at hE
      · rename_i newItems s1 hOk
        split
        · exact ⟨_, rfl⟩
        · rename_i hne
          obtain ⟨x, xs, hx⟩ : ∃ x xs, newItems = x :: xs := by
            cases newItems with
            | nil => simp at hne
            | cons x xs => exact ⟨x, xs, rfl⟩
          subst hx
          rw [serveItem_override]
          simp only [List.getElem?_cons_zero]
          exact ⟨_, rfl⟩
    · rename_i hg
      push_neg at hg
      rw [serveItem_inbounds s (by omega)]
      exact ⟨_, rfl⟩

theorem getNextItemR_inv (env : REnv) (tags : List String) (nsfw : Bool)
    (s : RState) (h : cursorInv s) :
    cursorInv (exceptState (getNextItem env tags nsfw s)) := by
  unfold getNextItem
  split
  · simpa [exceptState] using h
  · split
    · split
      · rename_i sE hE
        obtain ⟨items, s', hok, _⟩ := fetchMediaR_spec env tags nsfw s
        rw [hok] at hE
        simp at hE
      · rename_i newItems s1 hOk
        have hinv1 : cursorInv s1 := by
          have := fetchMediaR_inv env tags nsfw s h
          rw [hOk] at this
          simpa [exceptState] using this
        split
        · simpa [exceptState] using hinv1
        · rename_i hne
          obtain ⟨x, xs, hx⟩ : ∃ x xs, newItems = x :: xs := by
            cases newItems with
            | nil => simp at hne
            | cons x xs => exact ⟨x, xs, rfl⟩
          subst hx
          rw [serveItem_override]
          simp only [List.getElem?_cons_zero]
          simp [exceptState, cursorInv]
    · rename_i hg
      push_neg at hg
      rw [serveItem_inbounds s (by omega)]
      simp only [exceptState, cursorInv]
      omega

theorem getNextItemR_exhausted_fetches (env : REnv) (tags : List String)
    (nsfw : Bool) (s : RState) (ht : tags.isEmpty = false)
    (hx : s.currentItems.length ≤ s.currentIndex) :
    (exceptState (getNextItem env tags nsfw s)).fetchMediaCalls =
      s.fetchMediaCalls + 1 := by
  unfold getNextItem
  rw [if_neg (by simp [ht])]
  rw [if_pos (Or.inr hx)]
  split
  · rename_i sE hE
    obtain ⟨items, s', hok, _⟩ := fetchMediaR_spec env tags nsfw s
    rw [hok] at hE
    simp at hE
  · rename_i newItems s1 hOk
    obtain ⟨items', s', hok', hg, _⟩ := fetchMediaR_spec env tags nsfw s
    rw [hOk] at hok'
    simp only [Except.ok.injEq, Prod.mk.injEq] at hok'
    obtain ⟨-, hs⟩ := hok'
    subst hs
    split
    · simpa [exceptState] using hg
    · have hsf :=
        (serveItem_fields { s1 with currentItems := newItems, currentIndex := 0 }).2.2.1
      rw [hsf]
      exact hg

theorem fetchMediaR_cacheLen (env : REnv) (tags : List String) (nsfw : Bool)
    (s : RState) (h : s.cache.length ≤ 1) :
    (exceptState (fetchMedia env tags nsfw s)).cache.length ≤ 1 := by
  obtain ⟨items, s', hok, _, _, hc⟩ := fetchMediaR_spec env tags nsfw s
  rw [hok]
  rcases hc with hc | ⟨-, hl⟩
  · simpa [exceptState, hc] using h
  · simpa [exceptState] using hl

theorem getNextItemR_cacheLen (env : REnv) (tags : List String) (nsfw : Bool)
    (s : RState) (h : s.cache.length ≤ 1) :
    (exceptState (getNextItem env tags nsfw s)).cache.length ≤ 1 := by
  unfold getNextItem
  split
  · simpa [exceptState] using h
  · split
    · split
      · rename_i sE hE
        obtain ⟨items, s', hok, _⟩ := fetchMediaR_spec env tags nsfw s
        rw [hok] at hE
        simp at hE
      · rename_i newItems s1 hOk
        have h1 : s1.cache.length ≤ 1 := by
          have := fetchMediaR_cacheLen env tags nsfw s h
          rw [hOk] at this
          simpa [exceptState] using this
        split
        · simpa [exceptState] using h1
        · have hsf :=
            (serveItem_fields { s1 with currentItems := newItems, currentIndex := 0 }).1
          rw [hsf]
          simpa using h1
    · have hsf := (serveItem_fields s).1
      rw [hsf]
      exact h

theorem fetchMediaR_miss_cacheKeys (env : REnv) (tags : List String)
    (nsfw : Bool) (s : RState) (ht : tags.isEmpty = false)
    (hmiss : (cacheLookup (createCacheKey tags nsfw).1 s.cache).getD [] = []) :
    ∀ e ∈ (exceptState (fetchMedia env tags nsfw s)).cache,
      e.1 = (createCacheKey tags nsfw).1 := by
  unfold fetchMedia
  dsimp only
  rw [if_neg (by simp [ht])]
  split
  · rename_i cached hl
    have hc : cached = [] := by
      have hl' : cacheLookup (createCacheKey tags nsfw).1 s.cache = some cached := hl
      rw [hl'] at hmiss
      simpa using hmiss
    split
    · rename_i hlen
      rw [hc] at hlen
      simp at hlen
    · obtain ⟨s', hs', _, _, hck, _⟩ :=
        fetchMediaMiss_spec env (createCacheKey tags nsfw).1 (bumpCalls s)
      rw [hs']
      simpa [exceptState] using hck
  · obtain ⟨s', hs', _, _, hck, _⟩ :=
      fetchMediaMiss_spec env (createCacheKey tags nsfw).1 (bumpCalls s)
    rw [hs']
    simpa [exceptState] using hck

/-- On a cleared state the fetch can only take the miss path, whose items are
a function of the environment alone. -/
theorem fetchMediaR_cleared_items (env : REnv) (tags : List String)
    (nsfw : Bool) (s : RState) (ht : tags.isEmpty = false) :
    ∃ s', fetchMedia env tags nsfw (clearCache s) = .ok (missItems env, s') := by
  unfold fetchMedia
  dsimp only
  rw [if_neg (by simp [ht])]
  have hl : cacheLookup (createCacheKey tags nsfw).1 (bumpCalls (clearCache s)).cache
      = none := rfl
  rw [hl]
  obtain ⟨s', hs', _⟩ :=
    fetchMediaMiss_spec env (createCacheKey tags nsfw).1 (bumpCalls (clearCache s))
  exact ⟨s', hs'⟩

theorem applyStep_inv (s : RState) (st : RStep) (h : cursorInv s) :
    cursorInv (applyStep s st) := by
  cases st with
  | getNext env tags nsfw => exact getNextItemR_inv env tags nsfw s h
  | fetch env tags nsfw => exact fetchMediaR_inv env tags nsfw s h
  | clear => simp [applyStep, clearCache, cursorInv]

theorem runSteps_inv (steps : List RStep) :
    ∀ s : RState, cursorInv s → cursorInv (runSteps s steps) := by
  induction steps with
  | nil => intro s h; exact h
  | cons st rest ih => intro s h; exact ih _ (applyStep_inv s st h)

theorem applyStep_cacheLen (s : RState) (st : RStep) (h : s.cache.length ≤ 1) :
    (applyStep s st).cache.length ≤ 1 := by
  cases st with
  | getNext env tags nsfw => exact getNextItemR_cacheLen env tags nsfw s h
  | fetch env tags nsfw => exact fetchMediaR_cacheLen env tags nsfw s h
  | clear => simp [applyStep, clearCache]

theorem runSteps_cacheLen (steps : List RStep) :
    ∀ s : RState, s.cache.length ≤ 1 → (runSteps s steps).cache.length ≤ 1 := by
  induction steps with
  | nil => intro s h; exact h
  | cons st rest ih => intro s h; exact ih _ (applyStep_cacheLen s st h)

end RedgifsService

theorem fetchMediaR_isOk (env : RedgifsService.REnv) (tags : List String)
    (nsfw : Bool) (s : RedgifsService.RState) :
    ∃ v, RedgifsService.fetchMedia env tags nsfw s = .ok v := by
  obtain ⟨items, s', hok, _⟩ := RedgifsService.fetchMediaR_spec env tags nsfw s
  exact ⟨_, hok⟩

/-- The item served right after a `clearCache` is a function of the upstream
environment alone: the head of the freshly fetched batch, with trending as
the fallback. -/
theorem getNextItemR_cleared_item (env : RedgifsService.REnv)
    (tags : List String) (nsfw : Bool) (s : RedgifsService.RState) :
    RedgifsService.exceptItem
        (RedgifsService.getNextItem env tags nsfw (RedgifsService.clearCache s)) =
      (if tags.isEmpty then (RedgifsService.fetchTrendingMedia env).head?
       else if (missItems env).isEmpty then (RedgifsService.fetchTrendingMedia env).head?
       else (missItems env)[0]?) := by
  unfold RedgifsService.getNextItem
  by_cases ht : tags.isEmpty
  · simp [ht, RedgifsService.exceptItem]
  · have ht' : tags.isEmpty = false := by simpa using ht
    simp only [ht', Bool.false_eq_true, if_false]
    have hguard : (RedgifsService.clearCache s).currentItems.length = 0 ∨
        (RedgifsService.clearCache s).currentItems.length ≤
          (RedgifsService.clearCache s).currentIndex := Or.inl rfl
    rw [if_pos hguard]
    obtain ⟨s', hs'⟩ := RedgifsService.fetchMediaR_cleared_items env tags nsfw s ht'
    split
    · rename_i sE hE
      rw [hs'] at hE
      simp at hE
    · rename_i newItems s1 hOk
      rw [hs'] at hOk
      simp only [Except.ok.injEq, Prod.mk.injEq] at hOk
      obtain ⟨h1, h2⟩ := hOk
      subst h1
      split
      · simp [RedgifsService.exceptItem]
      · rename_i hemp
        obtain ⟨x, xs, hx⟩ : ∃ x xs, missItems env = x :: xs := by
          cases hmm : missItems env with
          | nil => rw [hmm] at hemp; simp at hemp
          | cons x xs => exact ⟨x, xs, rfl⟩
        rw [RedgifsService.serveItem_override]
        rw [hx]
        simp [RedgifsService.exceptItem]

/-! ## Mapper lemmas -/

theorem httpsAbsolute_protorel (u : String) (h : strStartsWith u "//" = true) :
    httpsAbsolute u = "https:" ++ u := by
  unfold httpsAbsolute
  rw [strStartsWith_protorel_not_http u h]
  have hne := strStartsWith_protorel_ne_empty u h
  simp [hne]

theorem mapRedgifsItem_none (r : RawRedgifsItem) (h : selectMediaUrl r = "") :
    mapRedgifsItem r = none := by
  simp only [mapRedgifsItem, h]
  simp

theorem mapRedgifsItem_some_urls (r : RawRedgifsItem) (m : MediaItem)
    (h : mapRedgifsItem r = some m) :
    m.url = httpsAbsolute (selectMediaUrl r) ∧
    m.thumbnailUrl = httpsAbsolute (selectThumbnailUrl r) := by
  simp only [mapRedgifsItem] at h
  by_cases hc : (selectMediaUrl r == "") = true
  · simp [hc] at h
  · rw [if_neg hc] at h
    simp only [Option.some.injEq] at h
    rw [← h]
    exact ⟨rfl, rfl⟩

theorem mapApiResponseToMediaItems_eq_filterMap (items : List RawRedgifsItem) :
    mapApiResponseToMediaItems items = items.filterMap mapRedgifsItem := by
  unfold mapApiResponseToMediaItems
  induction items with
  | nil => rfl
  | cons r rest ih =>
    rw [List.map_cons, List.filterMap_cons, List.filterMap_cons]
    cases h : mapRedgifsItem r <;> simp [h, ih]

/-! ## NSFW filtering in the Reddit backup -/

theorem redditLoop_nsfw_free (settings : PlayerSettings)
    (h : settings.allowNsfw = false) :
    ∀ posts, ∀ it ∈ redditLoop settings posts,
      ∃ p, p ∈ posts ∧ p.over_18 = false ∧ it = redditItemOf p := by
  intro posts
  induction posts with
  | nil => intro it hit; simp [redditLoop] at hit
  | cons p rest ih =>
    intro it hit
    rw [redditLoop] at hit
    split at hit
    · (try dsimp only at hit)
      split at hit
      · split at hit
        · obtain ⟨q, hq, h18, hiq⟩ := ih it hit
          exact ⟨q, List.mem_cons_of_mem _ hq, h18, hiq⟩
        · rename_i h18
          have hp18 : p.over_18 = false := by
            rw [h] at h18
            simpa using h18
          cases List.mem_cons.mp hit with
          | inl he => exact ⟨p, List.mem_cons_self _ _, hp18, he⟩
          | inr hm =>
            obtain ⟨q, hq, h18q, hiq⟩ := ih it hm
            exact ⟨q, List.mem_cons_of_mem _ hq, h18q, hiq⟩
      · obtain ⟨q, hq, h18, hiq⟩ := ih it hit
        exact ⟨q, List.mem_cons_of_mem _ hq, h18, hiq⟩
    · obtain ⟨q, hq, h18, hiq⟩ := ih it hit
      exact ⟨q, List.mem_cons_of_mem _ hq, h18, hiq⟩

/-! ## The claims -/

/-- C1: the claim says that from an empty sequencer state `getNextItem`
invokes `fetchMedia` and returns `null` only when that fetch yields zero
items, returning the first item of every non-empty batch. The code violates
this: on the zero-results path `fetchMedia` resolves with the non-empty mock
fallback batch (20 items here) but never stores it in `cachedItems`, so the
immediately following `shift()` in `getNextItem` finds the cache still empty
and returns `null` despite the non-empty fetch result — contradicting both
the claim and the code's own "using mock data" / "Using sample content
instead" notifications, so this is a bug in the code. This theorem evaluates
the embedded code at the failing input. -/
theorem scroller_getNextItem_drops_mock_fallback :
    (∃ s', ScrollerService.fetchMedia envZeroResults natureSettings 20
        ScrollerService.initSState =
      .ok (ScrollerService.generateMockData 20, s')) ∧
    ScrollerService.generateMockData 20 ≠ [] ∧
    (∃ s', ScrollerService.getNextItem envZeroResults natureSettings
        ScrollerService.initSState = .ok (none, s')) :=
  ⟨⟨_, rfl⟩, by decide, ⟨_, rfl⟩⟩

/-- C2: when every primary attempt and the Reddit backup fail at the
transport level, `fetchMedia` resolves with the non-empty static mock
fallback after exactly `MAX_RETRIES = 3` retry cycles — three 1-second
backoff sleeps and `MAX_RETRIES + 1 = 4` primary attempts in total, counted
by the ghost fields — and the retry counter is reset to zero afterwards. -/
theorem scroller_fetchMedia_total_failure_retries
    (env : ScrollerService.ScrollerEnv) (settings : PlayerSettings)
    (limit : Nat) (s : ScrollerService.SState)
    (hA : ∀ n, env.attempt n = ScrollerService.ScrollerAttempt.transportFail)
    (hR : env.redditPosts = none)
    (hF : s.isFetching = false) (hr : s.retryCount = 0) (hl : 0 < limit) :
    ScrollerService.generateMockData limit ≠ [] ∧
    ScrollerService.fetchMedia env settings limit s =
      .ok (ScrollerService.generateMockData limit,
           ⟨s.cachedItems, s.lastFetchTime, false, 0,
            s.sleeps + ScrollerService.MAX_RETRIES,
            s.primaryAttempts + ScrollerService.MAX_RETRIES + 1,
            s.pendingRefills⟩) := by
  constructor
  · simp only [ScrollerService.generateMockData, ne_eq, List.map_eq_nil_iff,
      List.range_eq_nil]
    omega
  · exact ScrollerService.fetchMediaGo_allFail env settings limit hA
      (by rw [hR]; rfl) ScrollerService.MAX_RETRIES s hF (by omega)

/-- Witness for C2 at a concrete all-failing environment. -/
theorem scroller_fetchMedia_total_failure_retries_witness :
    (∀ n, envAllFail.attempt n = ScrollerService.ScrollerAttempt.transportFail) ∧
    envAllFail.redditPosts = none ∧
    ScrollerService.initSState.isFetching = false ∧
    ScrollerService.initSState.retryCount = 0 ∧ 0 < 20 ∧
    (ScrollerService.generateMockData 20 ≠ [] ∧
     ScrollerService.fetchMedia envAllFail natureSettings 20
         ScrollerService.initSState =
       .ok (ScrollerService.generateMockData 20,
            ⟨ScrollerService.initSState.cachedItems,
             ScrollerService.initSState.lastFetchTime, false, 0,
             ScrollerService.initSState.sleeps + ScrollerService.MAX_RETRIES,
             ScrollerService.initSState.primaryAttempts +
               ScrollerService.MAX_RETRIES + 1,
             ScrollerService.initSState.pendingRefills⟩)) :=
  ⟨fun _ => rfl, rfl, rfl, rfl, by decide,
   scroller_fetchMedia_total_failure_retries envAllFail natureSettings 20
     ScrollerService.initSState (fun _ => rfl) rfl rfl rfl (by decide)⟩

/-- C3: `clearCache` unconditionally empties the cache and the current batch
and resets the cursor to zero, and the item produced by the `getNextItem`
immediately following it does not depend on any pre-clear state at all (for
any two prior states `s`, `t` the served item is the same), so it can only
come from the fresh fetch. -/
theorem clearCache_then_getNextItem_no_stale (s t : RedgifsService.RState)
    (env : RedgifsService.REnv) (tags : List String) (nsfw : Bool) :
    (RedgifsService.clearCache s).cache = [] ∧
    (RedgifsService.clearCache s).currentItems = [] ∧
    (RedgifsService.clearCache s).currentIndex = 0 ∧
    RedgifsService.exceptItem
        (RedgifsService.getNextItem env tags nsfw (RedgifsService.clearCache s)) =
      RedgifsService.exceptItem
        (RedgifsService.getNextItem env tags nsfw (RedgifsService.clearCache t)) :=
  ⟨rfl, rfl, rfl, by
    rw [getNextItemR_cleared_item env tags nsfw s,
        getNextItemR_cleared_item env tags nsfw t]⟩

/-- C4: for every upstream behaviour (network error, non-2xx status,
malformed JSON, zero results — all covered by the quantified environments)
and every state, `fetchMedia` and `getNextItem` of both services resolve
(`Except.ok`): no internal exception escapes the embedded
`try/catch/finally` structure. -/
theorem core_calls_always_resolve :
    (∀ (env : ScrollerService.ScrollerEnv) (settings : PlayerSettings)
       (limit : Nat) (s : ScrollerService.SState),
       ∃ v, ScrollerService.fetchMedia env settings limit s = .ok v) ∧
    (∀ (env : ScrollerService.ScrollerEnv) (settings : PlayerSettings)
       (s : ScrollerService.SState),
       ∃ v, ScrollerService.getNextItem env settings s = .ok v) ∧
    (∀ (env : RedgifsService.REnv) (tags : List String) (nsfw : Bool)
       (s : RedgifsService.RState),
       ∃ v, RedgifsService.fetchMedia env tags nsfw s = .ok v) ∧
    (∀ (env : RedgifsService.REnv) (tags : List String) (nsfw : Bool)
       (s : RedgifsService.RState),
       ∃ v, RedgifsService.getNextItem env tags nsfw s = .ok v) :=
  ⟨ScrollerService.fetchMedia_isOk, ScrollerService.getNextItem_isOk,
   fetchMediaR_isOk, RedgifsService.getNextItemR_isOk⟩

/-- C5: the cache key is invariant under permutation of a non-empty `tags`
array: the key sorts the tags before joining them. -/
theorem cacheKey_perm_invariant (tags₁ tags₂ : List String) (nsfw : Bool)
    (hne : tags₁ ≠ []) (hperm : tags₁.Perm tags₂) :
    (createCacheKey tags₁ nsfw).1 = (createCacheKey tags₂ nsfw).1 := by
  unfold createCacheKey
  rw [sortStrings_eq_of_perm hperm]

/-- Witness for C5 at a concrete permutation. -/
theorem cacheKey_perm_invariant_witness :
    (["b", "a"] : List String) ≠ [] ∧
    (["b", "a"] : List String).Perm ["a", "b"] ∧
    (createCacheKey ["b", "a"] true).1 = (createCacheKey ["a", "b"] true).1 :=
  ⟨by decide, by decide,
   cacheKey_perm_invariant ["b", "a"] ["a", "b"] true (by decide) (by decide)⟩

/-- C6: with `allowNsfw = false` every item produced by the Reddit backup
mapper comes from a post whose `over_18` flag is `false`; in particular the
spec's example scenario — two NSFW-safe posts plus one `over_18` post —
yields exactly the two NSFW-safe items. -/
theorem reddit_nsfw_filtered (settings : PlayerSettings)
    (posts : List RawRedditPost) (h : settings.allowNsfw = false) :
    (∀ it ∈ redditLoop settings posts,
      ∃ p, p ∈ posts ∧ p.over_18 = false ∧ it = redditItemOf p) ∧
    redditLoop natureSettings [naturePost1, nsfwSamplePost, naturePost2] =
      [redditItemOf naturePost1, redditItemOf naturePost2] :=
  ⟨redditLoop_nsfw_free settings h posts, by decide⟩

/-- Witness for C6 at the spec's example scenario. -/
theorem reddit_nsfw_filtered_witness :
    natureSettings.allowNsfw = false ∧
    ((∀ it ∈ redditLoop natureSettings [naturePost1, nsfwSamplePost, naturePost2],
       ∃ p, p ∈ [naturePost1, nsfwSamplePost, naturePost2] ∧
         p.over_18 = false ∧ it = redditItemOf p) ∧
     redditLoop natureSettings [naturePost1, nsfwSamplePost, naturePost2] =
       [redditItemOf naturePost1, redditItemOf naturePost2]) :=
  ⟨rfl, reddit_nsfw_filtered natureSettings
    [naturePost1, nsfwSamplePost, naturePost2] rfl⟩

/-- C7: the rotation-cursor invariant `0 ≤ index ≤ items.length` holds in
every state reachable from the initial state by any sequence of
`getNextItem` / `fetchMedia` / `clearCache` calls (the lower bound is
intrinsic to `Nat`), and whenever the cursor is exhausted
(`index = items.length`) a `getNextItem` with non-empty tags performs
exactly one refill `fetchMedia` call before serving. -/
theorem rotation_cursor_invariant :
    (∀ steps : List RedgifsService.RStep,
      RedgifsService.cursorInv
        (RedgifsService.runSteps RedgifsService.initRState steps)) ∧
    (∀ (env : RedgifsService.REnv) (tags : List String) (nsfw : Bool)
       (s : RedgifsService.RState), tags ≠ [] →
       s.currentIndex = s.currentItems.length →
       (RedgifsService.exceptState
           (RedgifsService.getNextItem env tags nsfw s)).fetchMediaCalls =
         s.fetchMediaCalls + 1) := by
  constructor
  · intro steps
    exact RedgifsService.runSteps_inv steps _ (Nat.le_refl 0)
  · intro env tags nsfw s ht hx
    have ht' : tags.isEmpty = false := by
      cases tags with
      | nil => exact absurd rfl ht
      | cons a l => rfl
    exact RedgifsService.getNextItemR_exhausted_fetches env tags nsfw s ht'
      (Nat.le_of_eq hx.symm)

/-- Witness for C7 at a concrete exhausted state. -/
theorem rotation_cursor_invariant_witness :
    (["a"] : List String) ≠ [] ∧
    exhaustedRState.currentIndex = exhaustedRState.currentItems.length ∧
    (RedgifsService.exceptState
        (RedgifsService.getNextItem rEnvSample ["a"] false
          exhaustedRState)).fetchMediaCalls =
      exhaustedRState.fetchMediaCalls + 1 :=
  ⟨by decide, by decide,
   rotation_cursor_invariant.2 rEnvSample ["a"] false exhaustedRState
     (by decide) (by decide)⟩

/-- C8: the response mapper is `filter(Boolean)` over the per-item map (so it
is total and possibly empty), every output item stems from some input entry
that mapped to it, an entry whose URL selection chain finds nothing is
dropped, and a protocol-relative media or thumbnail URL (`//host/path`) is
normalized to `https://host/path` in the produced item. -/
theorem mapper_drops_urlless_and_normalizes (items : List RawRedgifsItem) :
    mapApiResponseToMediaItems items = items.filterMap mapRedgifsItem ∧
    (∀ m ∈ mapApiResponseToMediaItems items,
      ∃ r ∈ items, mapRedgifsItem r = some m) ∧
    (∀ r ∈ items, selectMediaUrl r = "" → mapRedgifsItem r = none) ∧
    (∀ r ∈ items, ∀ m : MediaItem, mapRedgifsItem r = some m →
      (strStartsWith (selectMediaUrl r) "//" = true →
        m.url = "https:" ++ selectMediaUrl r) ∧
      (strStartsWith (selectThumbnailUrl r) "//" = true →
        m.thumbnailUrl = "https:" ++ selectThumbnailUrl r)) := by
  refine ⟨mapApiResponseToMediaItems_eq_filterMap items, ?_, ?_, ?_⟩
  · intro m hm
    rw [mapApiResponseToMediaItems_eq_filterMap items] at hm
    exact List.mem_filterMap.mp hm
  · intro r _ h
    exact mapRedgifsItem_none r h
  · intro r _ m hm
    obtain ⟨hu, hth⟩ := mapRedgifsItem_some_urls r m hm
    constructor
    · intro hp
      rw [hu, httpsAbsolute_protorel _ hp]
    · intro hp
      rw [hth, httpsAbsolute_protorel _ hp]

/-- Witness for C8: a protocol-relative entry is normalized and a URL-less
entry is dropped. -/
theorem mapper_drops_urlless_and_normalizes_witness :
    (mapRedgifsItem urllessItem = none) ∧
    ((strStartsWith (selectMediaUrl protoRelItem) "//" = true →
       ({ id := "g1", url := "https://media.example/g1.mp4",
          type := MType.video, width := 0, height := 0,
          thumbnailUrl := "https://media.example/g1-thumb.jpg" } : MediaItem).url =
         "https:" ++ selectMediaUrl protoRelItem) ∧
     (strStartsWith (selectThumbnailUrl protoRelItem) "//" = true →
       ({ id := "g1", url := "https://media.example/g1.mp4",
          type := MType.video, width := 0, height := 0,
          thumbnailUrl := "https://media.example/g1-thumb.jpg" } : MediaItem).thumbnailUrl =
         "https:" ++ selectThumbnailUrl protoRelItem)) :=
  ⟨(mapper_drops_urlless_and_normalizes [urllessItem]).2.2.1 urllessItem
     (by simp) (by decide),
   (mapper_drops_urlless_and_normalizes [protoRelItem]).2.2.2 protoRelItem
     (by simp) _ (by decide)⟩

/-- C9: on every cache miss `RedgifsService.fetchMedia` clears the whole
cache before fetching and stores at most the new key's batch, so the result
cache of every reachable state has at most one entry, and after a miss fetch
every surviving cache entry carries the fetched key (every other key was
evicted). -/
theorem cache_single_entry :
    (∀ steps : List RedgifsService.RStep,
      (RedgifsService.runSteps RedgifsService.initRState steps).cache.length ≤ 1) ∧
    (∀ (env : RedgifsService.REnv) (tags : List String) (nsfw : Bool)
       (s : RedgifsService.RState), tags ≠ [] →
       (RedgifsService.cacheLookup (createCacheKey tags nsfw).1 s.cache).getD [] = [] →
       ∀ e ∈ (RedgifsService.exceptState
           (RedgifsService.fetchMedia env tags nsfw s)).cache,
         e.1 = (createCacheKey tags nsfw).1) := by
  constructor
  · intro steps
    exact RedgifsService.runSteps_cacheLen steps _ (Nat.le_refl 0 |>.trans (by omega))
  · intro env tags nsfw s ht hmiss
    have ht' : tags.isEmpty = false := by
      cases tags with
      | nil => exact absurd rfl ht
      | cons a l => rfl
    exact RedgifsService.fetchMediaR_miss_cacheKeys env tags nsfw s ht' hmiss

/-- Witness for C9 at a concrete miss fetch from the initial state. -/
theorem cache_single_entry_witness :
    (RedgifsService.runSteps RedgifsService.initRState []).cache.length ≤ 1 ∧
    (["a"] : List String) ≠ [] ∧
    (RedgifsService.cacheLookup (createCacheKey ["a"] false).1
      RedgifsService.initRState.cache).getD [] = [] ∧
    (∀ e ∈ (RedgifsService.exceptState
        (RedgifsService.fetchMedia rEnvSample ["a"] false
          RedgifsService.initRState)).cache,
      e.1 = (createCacheKey ["a"] false).1) :=
  ⟨cache_single_entry.1 [], by decide, by decide,
   cache_single_entry.2 rEnvSample ["a"] false RedgifsService.initRState
     (by decide) (by decide)⟩

/-- C10: `createCacheKey` sorts the caller's `tags` array in place
(`tags.sort()`): the array the caller retains afterwards is the sorted one,
so whenever `tags` was not already sorted the caller's array has been
reordered by merely computing a cache key. -/
theorem cacheKey_sorts_in_place (tags : List String) (nsfw : Bool)
    (h : sortStrings tags ≠ tags) :
    (createCacheKey tags nsfw).2 = sortStrings tags ∧
    (createCacheKey tags nsfw).2 ≠ tags :=
  ⟨rfl, h⟩

/-- Witness for C10 at a concretely unsorted array. -/
theorem cacheKey_sorts_in_place_witness :
    sortStrings ["b", "a"] ≠ ["b", "a"] ∧
    ((createCacheKey ["b", "a"] false).2 = sortStrings ["b", "a"] ∧
     (createCacheKey ["b", "a"] false).2 ≠ ["b", "a"]) :=
  ⟨by decide, cacheKey_sorts_in_place ["b", "a"] false (by decide)⟩
